import Mathlib

/-!
Shallow embedding of the CHIP-8 emulator (`chip8.hpp` / `chip8.cpp`).

Modelling conventions:
* every C++ fixed-size array (`registers[16]`, `memory[4096]`, `stack[16]`,
  `keypad[16]`, `video[2048]`) is modelled as a total map `Nat → Nat`; the
  claims only concern in-bounds indices, where the total map and the C array
  coincide;
* machine integers are modelled as `Nat` with explicit truncation where the
  C++ type forces one: a store into a `uint8_t` lvalue of an `int`-typed
  expression is `% 256`, into a `uint16_t` lvalue `% 65536`;
* power-of-two low-bit masks are written with the exact arithmetic identity
  `a & (2^k - 1) = a % 2^k` and `(a & 0x0F00) >> 8 = a / 256 % 16` (bit
  extraction), valid for every natural number `a`;
* `uint8_t` subtraction (`a - b` under integer promotion, converted back to
  `uint8_t`) is `((a - b : Int) % 256).toNat`;
* the RNG draw `randByte(randGen)` is passed in as an explicit byte argument.
-/

namespace Chip8Verif

/-- Pointwise update of a total map, modelling a single C array store
`f[i] = v`. -/
def upd (f : Nat → Nat) (i v : Nat) : Nat → Nat :=
  fun j => if j = i then v else f j

/-- `uint8_t` subtraction: operands are promoted to `int`, subtracted, and the
result is converted back to `uint8_t`, i.e. reduced modulo 256 (wrapping on
underflow). -/
def sub8 (a b : Nat) : Nat := (((a : Int) - (b : Int)) % 256).toNat

/-- The machine state of `class Chip8` (chip8.hpp): 16 8-bit registers, 4 KB of
memory, 16-bit index register and program counter, a 16-entry stack with an
8-bit stack pointer, two 8-bit timers, 16 key states, the 64×32 framebuffer of
32-bit pixel words, and the current 16-bit opcode. -/
structure Chip8 where
  registers : Nat → Nat
  memory : Nat → Nat
  index : Nat
  pc : Nat
  stack : Nat → Nat
  sp : Nat
  delayTimer : Nat
  soundTimer : Nat
  keypad : Nat → Nat
  video : Nat → Nat
  opcode : Nat

/-- Decode the destination register selector: `(opcode & 0x0F00u) >> 8u`,
i.e. bits 8..11 of the opcode, which is `opcode / 256 % 16`. -/
def regX (s : Chip8) : Nat := s.opcode / 256 % 16

/-- Decode the source register selector: `(opcode & 0x00F0u) >> 4u`,
i.e. bits 4..7 of the opcode, which is `opcode / 16 % 16`. -/
def regY (s : Chip8) : Nat := s.opcode / 16 % 16

/-- `'00E0': CLS` — clear the display: `std::fill` resets every pixel word of
`video` to 0. -/
def OP_00E0 (s : Chip8) : Chip8 :=
  { s with video := fun _ => 0 }

/-- `'00EE': RET` — `sp--; pc = stack[sp];` with `sp` a `uint8_t`, so the
decrement wraps modulo 256. -/
def OP_00EE (s : Chip8) : Chip8 :=
  { s with sp := (s.sp + 255) % 256, pc := s.stack ((s.sp + 255) % 256) }

/-- `'1nnn': JP addr` — `pc = opcode & 0x0FFFu` (low 12 bits, `% 4096`). -/
def OP_1nnn (s : Chip8) : Chip8 :=
  { s with pc := s.opcode % 4096 }

/-- `'2nnn': CALL addr` — `stack[sp] = pc; sp++; pc = opcode & 0x0FFFu`;
`sp` is a `uint8_t` so the increment wraps modulo 256. -/
def OP_2nnn (s : Chip8) : Chip8 :=
  { s with stack := upd s.stack s.sp s.pc,
           sp := (s.sp + 1) % 256,
           pc := s.opcode % 4096 }

/-- `'3xkk': SE Vx, byte` — skip next instruction (`pc += 2`, `uint16_t`)
if `registers[Vx] == (opcode & 0x00FFu)`. -/
def OP_3xkk (s : Chip8) : Chip8 :=
  if s.registers (regX s) = s.opcode % 256
  then { s with pc := (s.pc + 2) % 65536 } else s

/-- `'4xkk': SNE Vx, byte` — skip next instruction if
`registers[Vx] != (opcode & 0x00FFu)`. -/
def OP_4xkk (s : Chip8) : Chip8 :=
  if s.registers (regX s) ≠ s.opcode % 256
  then { s with pc := (s.pc + 2) % 65536 } else s

/-- `'5xy0': SE Vx, Vy` — skip next instruction if
`registers[Vx] == registers[Vy]`. -/
def OP_5xy0 (s : Chip8) : Chip8 :=
  if s.registers (regX s) = s.registers (regY s)
  then { s with pc := (s.pc + 2) % 65536 } else s

/-- `'6xkk': LD Vx, byte` — `registers[Vx] = opcode & 0x00FFu`. -/
def OP_6xkk (s : Chip8) : Chip8 :=
  { s with registers := upd s.registers (regX s) (s.opcode % 256) }

/-- `'7xkk': ADD Vx, byte` — `registers[Vx] += opcode & 0x00FFu`; the store
into the `uint8_t` register truncates modulo 256. -/
def OP_7xkk (s : Chip8) : Chip8 :=
  { s with
      registers := upd s.registers (regX s) ((s.registers (regX s) + s.opcode % 256) % 256) }

/-- `'8xy0': LD Vx, Vy` — `registers[Vx] = registers[Vy]`. -/
def OP_8xy0 (s : Chip8) : Chip8 :=
  { s with registers := upd s.registers (regX s) (s.registers (regY s)) }

/-- `'8xy1': OR Vx, Vy` — `registers[Vx] |= registers[Vy]`. -/
def OP_8xy1 (s : Chip8) : Chip8 :=
  { s with
      registers := upd s.registers (regX s) (s.registers (regX s) ||| s.registers (regY s)) }

/-- `'8xy2': AND Vx, Vy` — `registers[Vx] &= registers[Vy]`. -/
def OP_8xy2 (s : Chip8) : Chip8 :=
  { s with
      registers := upd s.registers (regX s) (s.registers (regX s) &&& s.registers (regY s)) }

/-- `'8xy3': XOR Vx, Vy` — `registers[Vx] ^= registers[Vy]`. -/
def OP_8xy3 (s : Chip8) : Chip8 :=
  { s with
      registers := upd s.registers (regX s) (s.registers (regX s) ^^^ s.registers (regY s)) }

/-- `'8xy4': ADD Vx, Vy` — `sum = registers[Vx] + registers[Vy]` (16-bit);
`registers[0xF] = (sum > 0xFFu)` is written FIRST, then
`registers[Vx] = sum & 0xFFu` (low byte, `% 256`). -/
def OP_8xy4 (s : Chip8) : Chip8 :=
  let sum := s.registers (regX s) + s.registers (regY s)
  let r1 := upd s.registers 15 (if sum > 255 then 1 else 0)
  { s with registers := upd r1 (regX s) (sum % 256) }

/-- `'8xy5': SUB Vx, Vy` — `registers[0xF] = (registers[Vx] > registers[Vy])`
is written FIRST, then `registers[Vx] -= registers[Vy]`; the subtrahend is
re-read from the possibly updated register file. -/
def OP_8xy5 (s : Chip8) : Chip8 :=
  let r1 := upd s.registers 15
      (if s.registers (regX s) > s.registers (regY s) then 1 else 0)
  { s with
      registers := upd r1 (regX s) (sub8 (r1 (regX s)) (r1 (regY s))) }

/-- `'8xy6': SHR Vx` — `registers[0xF] = registers[Vx] & 0x0001u` (the low
bit, `% 2`) is written first, then `registers[Vx] >>= 1`. -/
def OP_8xy6 (s : Chip8) : Chip8 :=
  let r1 := upd s.registers 15 (s.registers (regX s) % 2)
  { s with registers := upd r1 (regX s) (r1 (regX s) / 2) }

/-- `'8xy7': SUBN Vx, Vy` — `registers[0xF] = (registers[Vy] > registers[Vx])`
is written first, then `registers[Vx] = registers[Vy] - registers[Vx]`. -/
def OP_8xy7 (s : Chip8) : Chip8 :=
  let r1 := upd s.registers 15
      (if s.registers (regY s) > s.registers (regX s) then 1 else 0)
  { s with
      registers := upd r1 (regX s) (sub8 (r1 (regY s)) (r1 (regX s))) }

/-- `'8xyE': SHL Vx` — `registers[0xF] = registers[Vx] & 0x0080u` (the raw
bit-7 mask value, 0 or 0x80, NOT shifted down to 0/1) is written first, then
`registers[Vx] <<= 1` with the `uint8_t` store truncating modulo 256. -/
def OP_8xyE (s : Chip8) : Chip8 :=
  let r1 := upd s.registers 15 (s.registers (regX s) &&& 0x80)
  { s with registers := upd r1 (regX s) (r1 (regX s) * 2 % 256) }

/-- `'9xy0': SNE Vx, Vy` — skip next instruction if
`registers[Vx] != registers[Vy]`. -/
def OP_9xy0 (s : Chip8) : Chip8 :=
  if s.registers (regX s) ≠ s.registers (regY s)
  then { s with pc := (s.pc + 2) % 65536 } else s

/-- `'Annn': LD I, addr` — `index = opcode & 0x0FFFu`. -/
def OP_Annn (s : Chip8) : Chip8 :=
  { s with index := s.opcode % 4096 }

/-- `'Bnnn': JP V0, addr` — `pc = (opcode & 0x0FFFu) + registers[0]`, the
store into the `uint16_t` program counter truncating modulo 65536. -/
def OP_Bnnn (s : Chip8) : Chip8 :=
  { s with pc := (s.opcode % 4096 + s.registers 0) % 65536 }

/-- `'Cxkk': RND Vx, byte` — the source computes
`kk = opcode & 0x000Fu` (a 4-BIT mask, `% 16`) and then
`registers[Vx] = randByte(randGen) & kk`; the random byte draw is the
argument `r`. -/
def OP_Cxkk (r : Nat) (s : Chip8) : Chip8 :=
  { s with registers := upd s.registers (regX s) (r &&& s.opcode % 16) }

/-- Body of the `if (spritePixel)` block of `Dxyn`: collision-test the pixel
word at `vIdx` (`registers[0xF] = 1` if it is 0xFFFFFFFF) and XOR it with
0xFFFFFFFF. -/
def drawPixel (vIdx : Nat) (u : Chip8) : Chip8 :=
  let u1 := if u.video vIdx = 0xFFFFFFFF
            then { u with registers := upd u.registers 15 1 } else u
  { u1 with video := upd u1.video vIdx (u1.video vIdx ^^^ 0xFFFFFFFF) }

/-- One iteration of the inner `col` loop of `Dxyn`: if bit
`spriteByte & (0x80u >> col)` is set, draw at the LINEAR pixel word index
`yRow * 64 + xPos + col` (where `yRow = yPos + row`; no per-pixel modulo). -/
def drawCol (spriteByte yRow xPos : Nat) (u : Chip8) (col : Nat) : Chip8 :=
  if spriteByte &&& (0x80 >>> col) ≠ 0
  then drawPixel (yRow * 64 + xPos + col) u else u

/-- One iteration of the outer `row` loop of `Dxyn`: read
`spriteByte = memory[index + row]` and run the 8-column inner loop. -/
def drawRow (xPos yPos : Nat) (t : Chip8) (row : Nat) : Chip8 :=
  (List.range 8).foldl (drawCol (t.memory (t.index + row)) (yPos + row) xPos) t

/-- `'Dxyn': DRW Vx, Vy, nibble` — draws the `height = opcode & 0x000Fu` rows
of sprite data at `memory[index + row]`, starting at
`xPos = registers[Vx] % 64`, `yPos = registers[Vy] % 32`; `registers[0xF]` is
cleared first, and each set sprite bit is drawn at linear index
`(yPos + row) * 64 + xPos + col` (only the start position wraps). -/
def OP_Dxyn (s : Chip8) : Chip8 :=
  (List.range (s.opcode % 16)).foldl
    (drawRow (s.registers (regX s) % 64) (s.registers (regY s) % 32))
    { s with registers := upd s.registers 15 0 }

/-- Sequential byte copy `m[a] = b; m[a+1] = b'; ...`, modelling both the
fontset copy loop of the constructor and the ROM copy loop of `LoadROM`. -/
def loadBytes : List Nat → Nat → (Nat → Nat) → Nat → Nat
  | [], _, m => m
  | b :: bs, a, m => loadBytes bs (a + 1) (upd m a b)

/-- The 80 fontset bytes (16 glyphs × 5 rows). -/
def fontset : List Nat :=
  [0xF0, 0x90, 0x90, 0x90, 0xF0,
   0x20, 0x60, 0x20, 0x20, 0x70,
   0xF0, 0x10, 0xF0, 0x80, 0xF0,
   0xF0, 0x10, 0xF0, 0x10, 0xF0,
   0x90, 0x90, 0xF0, 0x10, 0x10,
   0xF0, 0x80, 0xF0, 0x10, 0xF0,
   0xF0, 0x80, 0xF0, 0x90, 0xF0,
   0xF0, 0x10, 0x20, 0x40, 0x40,
   0xF0, 0x90, 0xF0, 0x90, 0xF0,
   0xF0, 0x90, 0xF0, 0x10, 0xF0,
   0xF0, 0x90, 0xF0, 0x90, 0x90,
   0xE0, 0x90, 0xE0, 0x90, 0xE0,
   0xF0, 0x80, 0x80, 0x80, 0xF0,
   0xE0, 0x90, 0x90, 0x90, 0xE0,
   0xF0, 0x80, 0xF0, 0x80, 0xF0,
   0xF0, 0x80, 0xF0, 0x80, 0x80]

/-- The constructor `Chip8::Chip8()`: all fields zero-initialized (the
`{}` member initializers), `pc = START_ADDRESS (0x200)`, and the fontset
copied to `FONSET_START_ADDRESS (0x50)`.  The C++ `opcode` member has no
initializer (indeterminate); it is modelled as 0, and no claim reads it
before a fetch overwrites it. -/
def initChip8 : Chip8 :=
  { registers := fun _ => 0,
    memory := loadBytes fontset 0x50 (fun _ => 0),
    index := 0,
    pc := 0x200,
    stack := fun _ => 0,
    sp := 0,
    delayTimer := 0,
    soundTimer := 0,
    keypad := fun _ => 0,
    video := fun _ => 0,
    opcode := 0 }

/-- `Chip8::LoadROM` with the file I/O abstracted to the byte sequence `rom`
that `file.read` places in `buffer`: the copy loop writes
`memory[START_ADDRESS + i] = buffer[i]` for `0 ≤ i < size`. -/
def LoadROM (rom : List Nat) (s : Chip8) : Chip8 :=
  { s with memory := loadBytes rom 0x200 s.memory }

/-- Modelled from the spec: the body of `Chip8::Cycle` and its decode switch
are not under `src/` (chip8.hpp only declares `void Cycle();`).  Per the spec
(§4.2), decode selects the handler by the high nibble of the opcode, with the
low byte distinguishing `00E0`/`00EE` and the low nibble distinguishing the
`0x8` family; an opcode with no handler is silently ignored.  `r` is the
random byte consumed by `Cxkk`. -/
def execOp (r : Nat) (s : Chip8) : Chip8 :=
  if s.opcode / 4096 % 16 = 0x0 then
    if s.opcode % 256 = 0xE0 then OP_00E0 s
    else if s.opcode % 256 = 0xEE then OP_00EE s
    else s
  else if s.opcode / 4096 % 16 = 0x1 then OP_1nnn s
  else if s.opcode / 4096 % 16 = 0x2 then OP_2nnn s
  else if s.opcode / 4096 % 16 = 0x3 then OP_3xkk s
  else if s.opcode / 4096 % 16 = 0x4 then OP_4xkk s
  else if s.opcode / 4096 % 16 = 0x5 then OP_5xy0 s
  else if s.opcode / 4096 % 16 = 0x6 then OP_6xkk s
  else if s.opcode / 4096 % 16 = 0x7 then OP_7xkk s
  else if s.opcode / 4096 % 16 = 0x8 then
    if s.opcode % 16 = 0x0 then OP_8xy0 s
    else if s.opcode % 16 = 0x1 then OP_8xy1 s
    else if s.opcode % 16 = 0x2 then OP_8xy2 s
    else if s.opcode % 16 = 0x3 then OP_8xy3 s
    else if s.opcode % 16 = 0x4 then OP_8xy4 s
    else if s.opcode % 16 = 0x5 then OP_8xy5 s
    else if s.opcode % 16 = 0x6 then OP_8xy6 s
    else if s.opcode % 16 = 0x7 then OP_8xy7 s
    else if s.opcode % 16 = 0xE then OP_8xyE s
    else s
  else if s.opcode / 4096 % 16 = 0x9 then OP_9xy0 s
  else if s.opcode / 4096 % 16 = 0xA then OP_Annn s
  else if s.opcode / 4096 % 16 = 0xB then OP_Bnnn s
  else if s.opcode / 4096 % 16 = 0xC then OP_Cxkk r s
  else if s.opcode / 4096 % 16 = 0xD then OP_Dxyn s
  else s

/-- Modelled from the spec: the body of `Chip8::Cycle` is not under `src/`.
Per the spec (§4.2): fetch reads `memory[pc]` and `memory[pc+1]`, combines
them big-endian into the current 16-bit opcode, advances `pc` by 2 (a
`uint16_t`) BEFORE dispatch, then dispatches on the fetched opcode. -/
def Cycle (r : Nat) (s : Chip8) : Chip8 :=
  execOp r { s with opcode := s.memory s.pc * 256 + s.memory (s.pc + 1),
                    pc := (s.pc + 2) % 65536 }

/-- Executing a sequence of (opcode, random byte) pairs from a state: each
step installs the opcode as the current instruction word and dispatches. -/
def run (ops : List (Nat × Nat)) (s : Chip8) : Chip8 :=
  ops.foldl (fun t p => execOp p.2 { t with opcode := p.1 }) s

/-- Framebuffer invariant: every in-bounds pixel word is all-zeros or
all-ones. -/
def VideoInv (s : Chip8) : Prop :=
  ∀ i, i < 2048 → s.video i = 0 ∨ s.video i = 0xFFFFFFFF

/-- The all-zero map, used to build concrete test states. -/
def zeroMap : Nat → Nat := fun _ => 0

/-- Concrete state for `Dxyn`: opcode `D011` (x = 0, y = 1, 1 row), V0 = 63,
V1 = 0, `index` = 0, `memory[0] = 0xC0` (sprite bits in columns 0 and 1),
cleared screen. -/
def dxynFail : Chip8 :=
  { initChip8 with opcode := 0xD011,
                   registers := upd zeroMap 0 63,
                   memory := upd zeroMap 0 0xC0 }

/-- Concrete state for `Cxkk`: opcode `C0FF` (x = 0, kk = 0xFF). -/
def cxkkFail : Chip8 :=
  { initChip8 with opcode := 0xC0FF }

/-- Concrete state for `8xyE`: opcode `800E` (x = 0), V0 = 0x80. -/
def shlFail : Chip8 :=
  { initChip8 with opcode := 0x800E, registers := upd zeroMap 0 0x80 }

/-- Concrete state for `8xy4` with destination VF: opcode `8F04` (x = 0xF,
y = 0), VF = 200, V0 = 100. -/
def addFail : Chip8 :=
  { initChip8 with opcode := 0x8F04,
                   registers := upd (upd zeroMap 15 200) 0 100 }

/-- Concrete state for `8xy4` with an ordinary destination: opcode `8014`
(x = 0, y = 1), V0 = 200, V1 = 100. -/
def addWit : Chip8 :=
  { initChip8 with opcode := 0x8014,
                   registers := upd (upd zeroMap 0 200) 1 100 }

/-- Concrete state for `8xy4` with destination VF: opcode `8F14` (x = 0xF,
y = 1), VF = 200, V1 = 100. -/
def addClobber : Chip8 :=
  { initChip8 with opcode := 0x8F14,
                   registers := upd (upd zeroMap 15 200) 1 100 }

/-- Concrete state for `8xy5` with source VF: opcode `80F5` (x = 0, y = 0xF),
V0 = 10, VF = 5. -/
def subFail : Chip8 :=
  { initChip8 with opcode := 0x80F5,
                   registers := upd (upd zeroMap 0 10) 15 5 }

/-- Spec scenario state: opcode `8015`, V0 = 10, V1 = 5. -/
def subSc1 : Chip8 :=
  { initChip8 with opcode := 0x8015,
                   registers := upd (upd zeroMap 0 10) 1 5 }

/-- Spec scenario state: opcode `8015`, V0 = 5, V1 = 10. -/
def subSc2 : Chip8 :=
  { initChip8 with opcode := 0x8015,
                   registers := upd (upd zeroMap 0 5) 1 10 }

/-- Spec scenario state for call/return: the post-fetch state of executing
`2300` fetched from address 0x200 (so `pc` = 0x202), empty stack. -/
def callSc : Chip8 :=
  { initChip8 with opcode := 0x2300, pc := 0x202, sp := 0 }

/-- A sample three-byte ROM. -/
def romSample : List Nat := [7, 8, 9]

lemma upd_same (f : Nat → Nat) (i v : Nat) : upd f i v i = v := by
  simp [upd]

lemma upd_ne (f : Nat → Nat) (i v j : Nat) (h : j ≠ i) : upd f i v j = f j := by
  simp [upd, h]

lemma sub8_eq (a b : Nat) (hb : b < 256) :
    sub8 a b = (a + 256 - b) % 256 := by
  unfold sub8
  omega

lemma loadBytes_before (bs : List Nat) :
    ∀ a m x, x < a → loadBytes bs a m x = m x := by
  induction bs with
  | nil => intro a m x _; rfl
  | cons b bs ih =>
      intro a m x hx
      show loadBytes bs (a + 1) (upd m a b) x = m x
      rw [ih (a + 1) _ x (by omega)]
      exact upd_ne _ _ _ _ (by omega)

lemma loadBytes_get (bs : List Nat) :
    ∀ a m i, i < bs.length → loadBytes bs a m (a + i) = bs.getD i 0 := by
  induction bs with
  | nil => intro a m i hi; simp at hi
  | cons b bs ih =>
      intro a m i hi
      cases i with
      | zero =>
          show loadBytes bs (a + 1) (upd m a b) (a + 0) = b
          rw [loadBytes_before bs (a + 1) _ (a + 0) (by omega)]
          exact upd_same _ _ _
      | succ j =>
          have hidx : a + (j + 1) = (a + 1) + j := by omega
          rw [hidx]
          exact ih (a + 1) _ j (by simpa using hi)

lemma foldl_inv {α : Type} (P : Chip8 → Prop) (f : Chip8 → α → Chip8)
    (hf : ∀ t a, P t → P (f t a)) :
    ∀ (l : List α) (s : Chip8), P s → P (l.foldl f s) := by
  intro l
  induction l with
  | nil => intro s hs; exact hs
  | cons a l ih => intro s hs; exact ih _ (hf _ _ hs)

lemma videoInv_of_video_eq {s t : Chip8} (hv : t.video = s.video)
    (h : VideoInv s) : VideoInv t := by
  intro i hi
  rw [hv]
  exact h i hi

lemma videoInv_flip (v : Nat → Nat) (vIdx : Nat)
    (h : ∀ i, i < 2048 → v i = 0 ∨ v i = 0xFFFFFFFF) :
    ∀ i, i < 2048 →
      upd v vIdx (v vIdx ^^^ 0xFFFFFFFF) i = 0 ∨
      upd v vIdx (v vIdx ^^^ 0xFFFFFFFF) i = 0xFFFFFFFF := by
  intro i hi
  unfold upd
  by_cases hiv : i = vIdx
  · subst hiv
    simp only [if_pos rfl]
    rcases h i hi with h0 | h1
    · rw [h0]
      right
      decide
    · rw [h1]
      left
      exact Nat.xor_self _
  · simp only [if_neg hiv]
    exact h i hi

lemma videoInv_drawPixel (vIdx : Nat) (u : Chip8) (hu : VideoInv u) :
    VideoInv (drawPixel vIdx u) := by
  unfold drawPixel
  have hv : (if u.video vIdx = 0xFFFFFFFF
      then { u with registers := upd u.registers 15 1 } else u).video
        = u.video := by
    split <;> rfl
  intro i hi
  show upd _ vIdx _ i = 0 ∨ upd _ vIdx _ i = 0xFFFFFFFF
  rw [hv]
  exact videoInv_flip u.video vIdx hu i hi

lemma videoInv_dxyn (s : Chip8) (h : VideoInv s) : VideoInv (OP_Dxyn s) := by
  unfold OP_Dxyn
  refine foldl_inv VideoInv _ ?_ _ _ h
  intro t row ht
  unfold drawRow
  refine foldl_inv VideoInv _ ?_ _ _ ht
  intro u col hu
  unfold drawCol
  split
  · exact videoInv_drawPixel _ u hu
  · exact hu

lemma video_OP_3xkk (s : Chip8) : (OP_3xkk s).video = s.video := by
  unfold OP_3xkk
  split <;> rfl

lemma video_OP_4xkk (s : Chip8) : (OP_4xkk s).video = s.video := by
  unfold OP_4xkk
  split <;> rfl

lemma video_OP_5xy0 (s : Chip8) : (OP_5xy0 s).video = s.video := by
  unfold OP_5xy0
  split <;> rfl

lemma video_OP_9xy0 (s : Chip8) : (OP_9xy0 s).video = s.video := by
  unfold OP_9xy0
  split <;> rfl

lemma videoInv_execOp (r : Nat) (s : Chip8) (h : VideoInv s) :
    VideoInv (execOp r s) := by
  delta execOp
  by_cases c0 : s.opcode / 4096 % 16 = 0
  · rw [if_pos c0]
    by_cases cE0 : s.opcode % 256 = 224
    · rw [if_pos cE0]
      exact fun _ _ => Or.inl rfl
    · rw [if_neg cE0]
      by_cases cEE : s.opcode % 256 = 238
      · rw [if_pos cEE]
        exact h
      · rw [if_neg cEE]
        exact h
  · rw [if_neg c0]
    by_cases c1 : s.opcode / 4096 % 16 = 1
    · rw [if_pos c1]
      exact h
    · rw [if_neg c1]
      by_cases c2 : s.opcode / 4096 % 16 = 2
      · rw [if_pos c2]
        exact h
      · rw [if_neg c2]
        by_cases c3 : s.opcode / 4096 % 16 = 3
        · rw [if_pos c3]
          exact videoInv_of_video_eq (video_OP_3xkk _) h
        · rw [if_neg c3]
          by_cases c4 : s.opcode / 4096 % 16 = 4
          · rw [if_pos c4]
            exact videoInv_of_video_eq (video_OP_4xkk _) h
          · rw [if_neg c4]
            by_cases c5 : s.opcode / 4096 % 16 = 5
            · rw [if_pos c5]
              exact videoInv_of_video_eq (video_OP_5xy0 _) h
            · rw [if_neg c5]
              by_cases c6 : s.opcode / 4096 % 16 = 6
              · rw [if_pos c6]
                exact h
              · rw [if_neg c6]
                by_cases c7 : s.opcode / 4096 % 16 = 7
                · rw [if_pos c7]
                  exact h
                · rw [if_neg c7]
                  by_cases c8 : s.opcode / 4096 % 16 = 8
                  · rw [if_pos c8]
                    by_cases d0 : s.opcode % 16 = 0
                    · rw [if_pos d0]
                      exact h
                    · rw [if_neg d0]
                      by_cases d1 : s.opcode % 16 = 1
                      · rw [if_pos d1]
                        exact h
                      · rw [if_neg d1]
                        by_cases d2 : s.opcode % 16 = 2
                        · rw [if_pos d2]
                          exact h
                        · rw [if_neg d2]
                          by_cases d3 : s.opcode % 16 = 3
                          · rw [if_pos d3]
                            exact h
                          · rw [if_neg d3]
                            by_cases d4 : s.opcode % 16 = 4
                            · rw [if_pos d4]
                              exact h
                            · rw [if_neg d4]
                              by_cases d5 : s.opcode % 16 = 5
                              · rw [if_pos d5]
                                exact h
                              · rw [if_neg d5]
                                by_cases d6 : s.opcode % 16 = 6
                                · rw [if_pos d6]
                                  exact h
                                · rw [if_neg d6]
                                  by_cases d7 : s.opcode % 16 = 7
                                  · rw [if_pos d7]
                                    exact h
                                  · rw [if_neg d7]
                                    by_cases dE : s.opcode % 16 = 14
                                    · rw [if_pos dE]
                                      exact h
                                    · rw [if_neg dE]
                                      exact h
                  · rw [if_neg c8]
                    by_cases c9 : s.opcode / 4096 % 16 = 9
                    · rw [if_pos c9]
                      exact videoInv_of_video_eq (video_OP_9xy0 _) h
                    · rw [if_neg c9]
                      by_cases c10 : s.opcode / 4096 % 16 = 10
                      · rw [if_pos c10]
                        exact h
                      · rw [if_neg c10]
                        by_cases c11 : s.opcode / 4096 % 16 = 11
                        · rw [if_pos c11]
                          exact h
                        · rw [if_neg c11]
                          by_cases c12 : s.opcode / 4096 % 16 = 12
                          · rw [if_pos c12]
                            exact h
                          · rw [if_neg c12]
                            by_cases c13 : s.opcode / 4096 % 16 = 13
                            · rw [if_pos c13]
                              exact videoInv_dxyn s h
                            · rw [if_neg c13]
                              exact h

/-- C1: every `Cycle` first fetches `memory[pc]` and `memory[pc+1]`, combines
them big-endian into the current opcode, and advances `pc` by 2 before
dispatching, so handlers that alter `pc` establish the post-fetch target. -/
theorem cycle_fetch_then_dispatch (r : Nat) (s : Chip8) :
    Cycle r s =
      execOp r { s with opcode := s.memory s.pc * 256 + s.memory (s.pc + 1),
                        pc := (s.pc + 2) % 65536 } := rfl

/-- C2 (failing-input evaluation): drawing a one-row sprite with bits in
columns 0 and 1 at x = 63, y = 0 sets the pixel words at linear indices 63
and 64 — index 64 is pixel (0, 1) of the next row — and leaves pixel (0, 0)
(linear index 0), where modulo wrap-around would put the second column, off;
the sprite spills linearly instead of wrapping. -/
theorem dxyn_no_pixel_wrap_eval :
    (OP_Dxyn dxynFail).video 63 = 0xFFFFFFFF ∧
    (OP_Dxyn dxynFail).video 64 = 0xFFFFFFFF ∧
    (OP_Dxyn dxynFail).video 0 = 0 := by
  decide

/-- C3 (failing-input evaluation): with opcode `C0FF` and random byte 0xF0,
the handler stores `0xF0 & (0xC0FF & 0x000F) = 0` into V0, whereas the
full-byte mask of the claim would give `0xF0 & 0xFF = 0xF0`. -/
theorem cxkk_nibble_mask_eval :
    (OP_Cxkk 0xF0 cxkkFail).registers 0 = 0 ∧
    0xF0 &&& (cxkkFail.opcode % 256) = 0xF0 := by
  decide

/-- C4 (failing-input evaluation): with V0 = 0x80, executing `800E` stores
`0x80 & 0x80 = 128` into VF — not the value 1 demanded by the 1/0 flag
convention — while V0 correctly becomes `(0x80 << 1) mod 256 = 0`. -/
theorem shl_flag_not_binary_eval :
    (OP_8xyE shlFail).registers 15 = 128 ∧
    (OP_8xyE shlFail).registers 15 ≠ 1 ∧
    (OP_8xyE shlFail).registers 0 = 0 := by
  decide

/-- C5 (counterexample): with x = 0xF (opcode `8F04`), VF = 200, V0 = 100,
the sum 300 exceeds 255 yet VF ends as `300 mod 256 = 44`, not 1 — the carry
write into VF is clobbered by the result write, refuting the claim for all
selectors. -/
theorem op8xy4_carry_cex :
    regX addFail = 15 ∧
    addFail.registers (regX addFail) + addFail.registers (regY addFail) > 255 ∧
    (OP_8xy4 addFail).registers 15 = 44 ∧
    (OP_8xy4 addFail).registers 15 ≠ 1 := by
  decide

/-- C5 (amended): for every state whose destination selector x is not 0xF,
`8xy4` sets VF to 1 iff `Vx + Vy > 255` (else 0) and sets Vx to
`(Vx + Vy) mod 256`. -/
theorem op8xy4_add_carry (s : Chip8) (hx : regX s ≠ 15) :
    (OP_8xy4 s).registers 15
      = (if s.registers (regX s) + s.registers (regY s) > 255 then 1 else 0) ∧
    (OP_8xy4 s).registers (regX s)
      = (s.registers (regX s) + s.registers (regY s)) % 256 := by
  have h15 : (15 : Nat) ≠ regX s := fun h => hx h.symm
  constructor
  · show upd (upd s.registers 15 _) (regX s) _ 15 = _
    rw [upd_ne _ _ _ _ h15, upd_same]
  · show upd (upd s.registers 15 _) (regX s) _ (regX s) = _
    rw [upd_same]

/-- C5 witness: the amended theorem applied at opcode `8014`, V0 = 200,
V1 = 100. -/
theorem op8xy4_add_carry_witness :
    regX addWit ≠ 15 ∧
    ((OP_8xy4 addWit).registers 15
        = (if addWit.registers (regX addWit) + addWit.registers (regY addWit)
            > 255 then 1 else 0) ∧
      (OP_8xy4 addWit).registers (regX addWit)
        = (addWit.registers (regX addWit) + addWit.registers (regY addWit))
            % 256) :=
  ⟨by decide, op8xy4_add_carry addWit (by decide)⟩

/-- C6 (counterexample): with y = 0xF (opcode `80F5`), V0 = 10, VF = 5, the
handler first writes the borrow flag (1) into VF and then subtracts the
FRESH VF from V0, giving V0 = 9 instead of the claimed
`(10 - 5) mod 256 = 5`. -/
theorem op8xy5_sub_cex :
    (OP_8xy5 subFail).registers 0 = 9 ∧
    (OP_8xy5 subFail).registers 0 ≠ 5 := by
  decide

/-- C6 (amended): for selectors x ≠ 0xF and y ≠ 0xF and byte-valued
operands, `8xy5` sets VF to 1 iff `Vx > Vy` (0 when equal) and sets Vx to
`(Vx - Vy) mod 256`, wrapping on underflow; the two spec scenarios for
opcode `8015` hold as stated. -/
theorem op8xy5_sub_borrow :
    (∀ s : Chip8, regX s ≠ 15 → regY s ≠ 15 →
      s.registers (regX s) < 256 → s.registers (regY s) < 256 →
      (OP_8xy5 s).registers 15
        = (if s.registers (regX s) > s.registers (regY s) then 1 else 0) ∧
      (OP_8xy5 s).registers (regX s)
        = (s.registers (regX s) + 256 - s.registers (regY s)) % 256) ∧
    ((OP_8xy5 subSc1).registers 0 = 5 ∧ (OP_8xy5 subSc1).registers 15 = 1) ∧
    ((OP_8xy5 subSc2).registers 0 = 251 ∧ (OP_8xy5 subSc2).registers 15 = 0) := by
  refine ⟨?_, by decide, by decide⟩
  intro s hx hy hrx hry
  have h15x : (15 : Nat) ≠ regX s := fun h => hx h.symm
  constructor
  · show upd (upd s.registers 15 _) (regX s) _ 15 = _
    rw [upd_ne _ _ _ _ h15x, upd_same]
  · show upd (upd s.registers 15 _) (regX s)
        (sub8 (upd s.registers 15 _ (regX s)) (upd s.registers 15 _ (regY s)))
        (regX s) = _
    rw [upd_same, upd_ne _ _ _ _ hx, upd_ne _ _ _ _ hy, sub8_eq _ _ hry]

/-- C6 witness: the amended theorem applied at the first spec scenario
(opcode `8015`, V0 = 10, V1 = 5). -/
theorem op8xy5_sub_borrow_witness :
    regX subSc1 ≠ 15 ∧ regY subSc1 ≠ 15 ∧
    subSc1.registers (regX subSc1) < 256 ∧
    subSc1.registers (regY subSc1) < 256 ∧
    ((OP_8xy5 subSc1).registers 15
        = (if subSc1.registers (regX subSc1) > subSc1.registers (regY subSc1)
            then 1 else 0) ∧
      (OP_8xy5 subSc1).registers (regX subSc1)
        = (subSc1.registers (regX subSc1) + 256
            - subSc1.registers (regY subSc1)) % 256) :=
  ⟨by decide, by decide, by decide, by decide,
    op8xy5_sub_borrow.1 subSc1 (by decide) (by decide) (by decide) (by decide)⟩

/-- C7: from any state with `sp ≤ 15` (the handler-level state is the
post-fetch state, so its `pc` is the address of the instruction after the
`2nnn`), executing `OP_2nnn` and then `OP_00EE` restores both `pc` and `sp`,
and the entry pushed by the call is exactly that post-fetch address. -/
theorem call_ret_roundtrip (s : Chip8) (h : s.sp ≤ 15) :
    (OP_00EE (OP_2nnn s)).pc = s.pc ∧
    (OP_00EE (OP_2nnn s)).sp = s.sp ∧
    (OP_2nnn s).stack s.sp = s.pc := by
  have hsp : ((s.sp + 1) % 256 + 255) % 256 = s.sp := by omega
  refine ⟨?_, ?_, ?_⟩
  · show upd s.stack s.sp s.pc (((s.sp + 1) % 256 + 255) % 256) = s.pc
    rw [hsp, upd_same]
  · show ((s.sp + 1) % 256 + 255) % 256 = s.sp
    exact hsp
  · exact upd_same _ _ _

/-- C7 witness: the round trip applied at the spec scenario (post-fetch state
of `2300` fetched from 0x200). -/
theorem call_ret_roundtrip_witness :
    callSc.sp ≤ 15 ∧
    ((OP_00EE (OP_2nnn callSc)).pc = callSc.pc ∧
      (OP_00EE (OP_2nnn callSc)).sp = callSc.sp ∧
      (OP_2nnn callSc).stack callSc.sp = callSc.pc) :=
  ⟨by decide, call_ret_roundtrip callSc (by decide)⟩

/-- C8: loading a ROM of size `S ≤ 4096 - 0x200` and then reading memory at
`0x200 + i` for any `i < S` reproduces the i-th ROM byte. -/
theorem loadROM_bytes (rom : List Nat) (s : Chip8)
    (_hS : rom.length ≤ 4096 - 0x200) (i : Nat) (hi : i < rom.length) :
    (LoadROM rom s).memory (0x200 + i) = rom.getD i 0 := by
  show loadBytes rom 0x200 s.memory (0x200 + i) = rom.getD i 0
  exact loadBytes_get rom 0x200 s.memory i hi

/-- C8 witness: the round trip applied to the sample ROM `[7, 8, 9]` at
index 2. -/
theorem loadROM_bytes_witness :
    romSample.length ≤ 4096 - 0x200 ∧ (2 : Nat) < romSample.length ∧
    (LoadROM romSample initChip8).memory (0x200 + 2) = romSample.getD 2 0 :=
  ⟨by decide, by decide,
    loadROM_bytes romSample initChip8 (by decide) 2 (by decide)⟩

/-- C9: in every state reached from the initialized machine by any sequence
of opcode executions, every in-bounds framebuffer pixel word is exactly 0 or
0xFFFFFFFF; in particular `OP_00E0` and `OP_Dxyn` preserve this invariant
from any state satisfying it. -/
theorem video_pixels_binary :
    (∀ ops : List (Nat × Nat), VideoInv (run ops initChip8)) ∧
    (∀ s : Chip8, VideoInv s → VideoInv (OP_00E0 s)) ∧
    (∀ s : Chip8, VideoInv s → VideoInv (OP_Dxyn s)) := by
  refine ⟨?_, ?_, ?_⟩
  · intro ops
    exact foldl_inv VideoInv _
      (fun t p ht => videoInv_execOp p.2 { t with opcode := p.1 } ht) ops
      initChip8 (fun _ _ => Or.inl rfl)
  · exact fun s _ _ _ => Or.inl rfl
  · exact fun s hs => videoInv_dxyn s hs

/-- C9 witness: the invariant instantiated on a concrete two-opcode run and
on `OP_Dxyn` from the initial state. -/
theorem video_pixels_binary_witness :
    VideoInv (run [(0x00E0, 0), (0xD011, 0)] initChip8) ∧
    VideoInv (OP_Dxyn initChip8) :=
  ⟨video_pixels_binary.1 [(0x00E0, 0), (0xD011, 0)],
    video_pixels_binary.2.2 initChip8 (fun _ _ => Or.inl rfl)⟩

/-- C10: when the destination selector of `8xy4` is 0xF, the final VF holds
the low byte of `VF_before + Vy_before`, because the carry written into VF is
immediately overwritten by the result write. -/
theorem op8xy4_flag_clobbered (s : Chip8) (hx : regX s = 15) :
    (OP_8xy4 s).registers 15 = (s.registers 15 + s.registers (regY s)) % 256 := by
  show upd (upd s.registers 15 _) (regX s) _ 15 = _
  rw [hx, upd_same]

/-- C10 witness: the clobbering theorem applied at opcode `8F14`, VF = 200,
V1 = 100 (result 44, not the carry 1). -/
theorem op8xy4_flag_clobbered_witness :
    regX addClobber = 15 ∧
    (OP_8xy4 addClobber).registers 15
      = (addClobber.registers 15 + addClobber.registers (regY addClobber))
          % 256 :=
  ⟨by decide, op8xy4_flag_clobbered addClobber (by decide)⟩

end Chip8Verif
